import Mathlib

/-!
Shallow embedding of `packages/web3-providers/src/providers/MetamaskInpageProvider.js`
(web3.js). The class extends `AbstractSocketProvider`; the parts of the base class,
of `JsonRpcMapper` and of `JsonRpcResponseValidator` the methods below touch are not
in scope and are modelled from the specification where needed (each such definition
says so in its doc comment). Everything else is a direct translation of the source.
-/

/-- A minimal JavaScript value universe: the values that flow through the adapter as
event names, correlation ids and payload fields. `undefined` is the value of a missing
property (such as `payload.id` when `payload` is an array). -/
inductive JsValue
  | null
  | undefined
  | bool (b : Bool)
  | num (n : Int)
  | str (s : String)
  deriving DecidableEq, Repr

/-- The five instance methods of the adapter that are used as native-event handlers. -/
inductive BaseHandler
  | onAccountsChanged
  | onNetworkChanged
  | onReady
  | onMessage
  | onError
  deriving DecidableEq, Repr

/-- A JavaScript function value used as a listener. `method h` is the bare method
reference `this.h`; `bound h` is `this.h.bind(this)`, which in JavaScript is a fresh
function object, never `===` to the bare reference. -/
inductive Handler
  | method (h : BaseHandler)
  | bound (h : BaseHandler)
  deriving DecidableEq, Repr

/-- The underlying Metamask inpage transport (`this.connection`): an event emitter with
an ordered listener list per native channel, plus its own connectivity flag. -/
structure Connection where
  listeners : List (String × Handler)
  isConnected : Bool
  deriving DecidableEq, Repr

/-- The call `connection.on(channel, handler)`: EventEmitter semantics, appends the
handler to the listener list unconditionally (no de-duplication). -/
def Connection.on (c : Connection) (ch : String) (h : Handler) : Connection :=
  { c with listeners := c.listeners ++ [(ch, h)] }

/-- The call `connection.removeListener(channel, handler)`: removes at most one listener entry
that is strictly equal to the given (channel, handler) pair; removing a pair that is
not present is a no-op. -/
def Connection.removeListener (c : Connection) (ch : String) (h : Handler) : Connection :=
  { c with listeners := c.listeners.erase (ch, h) }

/-- Adapter state: the wrapped connection, the `host` field set by the constructor, and
the outward EventEmitter listener table inherited from the base class, keyed by event
name or correlation id, with each registered listener identified by a token. -/
structure ProviderState where
  connection : Connection
  host : String
  emitterListeners : List (JsValue × Nat)
  deriving DecidableEq, Repr

/-- The constructor: `super(inpageProvider, null)` stores the transport, then
`this.host = 'metamask'`; a fresh adapter has no outward listeners registered. -/
def mkProvider (c : Connection) : ProviderState :=
  { connection := c, host := "metamask", emitterListeners := [] }

/-- Modelled from the spec: the base class constant naming the outward message channel
(`AbstractSocketProvider` is not in scope; the spec fixes a set of distinct outward
channel names owned by the Event Bridge). -/
def SOCKET_MESSAGE : JsValue := .str "socket_message"

/-- Modelled from the spec: the base class constant for the outward accountsChanged
channel. -/
def SOCKET_ACCOUNTS_CHANGED : JsValue := .str "socket_accountsChanged"

/-- Modelled from the spec: the base class constant for the outward networkChanged
channel. -/
def SOCKET_NETWORK_CHANGED : JsValue := .str "socket_networkChanged"

/-- Modelled from the spec: the base class constant for the outward error channel. -/
def SOCKET_ERROR : JsValue := .str "socket_error"

/-- Modelled from the spec: the base class constant for the adapter-level ready
signal derived from the first network-change notification. -/
def SOCKET_READY : JsValue := .str "ready"

/-- The fixed outward channel vocabulary of the Event Bridge (spec section 4.3). -/
def channelNames : List JsValue :=
  [SOCKET_MESSAGE, SOCKET_ACCOUNTS_CHANGED, SOCKET_NETWORK_CHANGED, SOCKET_ERROR, SOCKET_READY]

/-- Modelled from the spec: `super.removeAllListeners(event)` on the inherited
EventEmitter. For a specific event key it detaches the listeners registered under that
key; with no argument (`undefined`, as when called with a missing property) it detaches
all outward channels — and only channels: correlation-id keyed entries belong to the
Call Dispatcher's listener table (spec section 5) and are not channels. -/
def superRemoveAllListeners (s : ProviderState) (event : JsValue) : ProviderState :=
  if event = JsValue.undefined then
    { s with emitterListeners := s.emitterListeners.filter (fun q => decide (q.1 ∉ channelNames)) }
  else
    { s with emitterListeners := s.emitterListeners.filter (fun q => decide (¬ q.1 = event)) }

/-- The outward emitter listeners registered under a given key. -/
def listenersFor (s : ProviderState) (k : JsValue) : List Nat :=
  (s.emitterListeners.filter (fun q => decide (q.1 = k))).map (fun q => q.2)

namespace MetamaskInpageProvider

/-- A queued method object as consumed by `sendBatch`: the fields the source reads
after running its `beforeExecution` hook. -/
structure Method where
  rpcMethod : String
  parameters : List JsValue
  deriving DecidableEq, Repr

/-- A JavaScript Error instance, as handed to the completion callback by the transport
or produced by the response validator. Per the transport contract (spec section 6) the
callback's first argument is either such an object or null/undefined. -/
structure ErrObj where
  message : String
  deriving DecidableEq, Repr

/-- A JSON-RPC request object (spec section 3); `toPayload` below builds it. -/
structure Payload where
  jsonrpc : String
  method : String
  params : List JsValue
  id : Int
  deriving DecidableEq, Repr

/-- Modelled from the spec: `JsonRpcMapper.toPayload(method, params)` — the Payload
Builder (spec sections 3, 4.1): a `{jsonrpc: "2.0", method, params, id}` object whose
correlation id is the mapper's running message counter, passed here explicitly. -/
def JsonRpcMapper.toPayload (method : String) (params : List JsValue) (id : Int) : Payload :=
  { jsonrpc := "2.0", method := method, params := params, id := id }

/-- The argument `sendPayload` receives: a single request object (from `send`) or an
array of request objects (from `sendBatch`). -/
inductive PayloadArg
  | single (p : Payload)
  | batch (ps : List Payload)
  deriving DecidableEq, Repr

/-- The JavaScript property access `payload.id`: the id field of a request object; for
an array it is a missing property, hence `undefined`. -/
def payloadId : PayloadArg → JsValue
  | .single p => .num p.id
  | .batch _ => .undefined

/-- How a returned promise settles. -/
inductive Outcome (α : Type)
  | resolved (v : α)
  | rejected (e : ErrObj)
  deriving DecidableEq, Repr

/-- An observable step taken by the dispatch code, in execution order: invoking a
method's `beforeExecution` hook, building one payload, writing to the transport,
the `removeAllListeners(payload.id)` cleanup, and settling the promise. -/
inductive Action (α : Type)
  | hook (m : Method)
  | build (p : Payload)
  | write (p : PayloadArg)
  | cleanup (id : JsValue)
  | resolve (v : α)
  | reject (e : ErrObj)
  deriving DecidableEq, Repr

/-- A settlement action (resolve or reject). -/
def Action.isSettle : Action α → Bool
  | .resolve _ => true
  | .reject _ => true
  | _ => false

/-- A transport write action. -/
def Action.isWrite : Action α → Bool
  | .write _ => true
  | _ => false

/-- A `beforeExecution` hook invocation. -/
def Action.isHook : Action α → Bool
  | .hook _ => true
  | _ => false

/-- The `removeAllListeners` cleanup action for the given correlation-id value. -/
def Action.isCleanupFor (id : JsValue) : Action α → Bool
  | .cleanup k => decide (k = id)
  | _ => false

/-- A delivered JSON-RPC response object as read by `send`: `{id, result}` or
`{id, error}` (spec section 3); a missing field reads as `undefined`. -/
structure RpcResponse where
  id : JsValue := .undefined
  result : JsValue := .undefined
  error : JsValue := .undefined
  deriving DecidableEq, Repr

/-- Result of running a dispatch method to promise settlement: the adapter state after
the completion callback ran, the settlement of the returned promise, and the ordered
trace of observable steps. -/
structure SendResult (α : Type) where
  state : ProviderState
  outcome : Outcome α
  trace : List (Action α)
  deriving Repr

/-- Method `registerEventListeners()` (source lines 40-46): attaches the five handlers, each
freshly bound with `.bind(this)`, in source order. -/
def registerEventListeners (s : ProviderState) : ProviderState :=
  { s with connection :=
      ((((s.connection.on "accountsChanged" (.bound .onAccountsChanged)
        ).on "networkChanged" (.bound .onReady)
        ).on "networkChanged" (.bound .onNetworkChanged)
        ).on "data" (.bound .onMessage)
        ).on "error" (.bound .onError) }

/-- Method `removeAllListeners(event)` (source lines 63-80): a switch on the outward channel
constants, each case calling `connection.removeListener` with the bare (unbound) method
reference; then `super.removeAllListeners(event)` in every case. -/
def removeAllListeners (s : ProviderState) (event : JsValue) : ProviderState :=
  let c := s.connection
  let c' :=
    if event = SOCKET_NETWORK_CHANGED then
      c.removeListener "networkChanged" (.method .onNetworkChanged)
    else if event = SOCKET_ACCOUNTS_CHANGED then
      c.removeListener "accountsChanged" (.method .onAccountsChanged)
    else if event = SOCKET_MESSAGE then
      c.removeListener "data" (.method .onMessage)
    else if event = SOCKET_ERROR then
      c.removeListener "error" (.method .onError)
    else c
  superRemoveAllListeners { s with connection := c' } event

/-- Method `onMessage(metamaskParam, payload)` (source lines 52-54): calls
`super.onMessage(payload)`. The inherited dispatch path is abstracted as a function
argument; the translation records exactly what is handed to it. -/
def onMessage (superOnMessage : JsValue → α) (metamaskParam payload : JsValue) : α :=
  superOnMessage payload

/-- Method `disconnect()` (source lines 119-121): `return true`, touching nothing. -/
def disconnect (s : ProviderState) : Bool × ProviderState :=
  (true, s)

/-- The `connected` getter (source lines 130-132): `return this.connection.isConnected()`. -/
def connected (s : ProviderState) : Bool :=
  s.connection.isConnected

/-- The completion callback passed to `this.connection.send` in `sendPayload` (source
lines 188-196): first `this.removeAllListeners(payload.id)`, then `resolve(response)`
when the transport reported no error (a null/undefined first argument) and
`reject(error)` when it reported an error object. -/
def sendPayloadCallback (s : ProviderState) (payload : PayloadArg)
    (error : Option ErrObj) (response : α) : SendResult α :=
  let s' := removeAllListeners s (payloadId payload)
  match error with
  | none => ⟨s', .resolved response, [.cleanup (payloadId payload), .resolve response]⟩
  | some e => ⟨s', .rejected e, [.cleanup (payloadId payload), .reject e]⟩

/-- Method `sendPayload(payload)` (source lines 186-198) run to settlement: one transport
write `this.connection.send(payload, callback)`, whose completion callback is
`sendPayloadCallback`; `error` and `response` are what the transport hands that
callback. -/
def sendPayload (s : ProviderState) (payload : PayloadArg)
    (error : Option ErrObj) (response : α) : SendResult α :=
  let r := sendPayloadCallback s payload error response
  ⟨r.state, r.outcome, .write payload :: r.trace⟩

/-- Method `send(method, parameters)` (source lines 144-154) run to settlement: builds the
payload, runs `sendPayload`, and in the `.then` continuation validates the delivered
response — `throw validationResult` when the validator returned an Error instance
(rejecting the promise with it), else `return response.result`. The validator
(`JsonRpcResponseValidator.validate`) is passed as a function returning `some e` when
its result is an Error instance `e` and `none` otherwise. -/
def send (validate : RpcResponse → Option ErrObj)
    (s : ProviderState) (method : String) (params : List JsValue) (id : Int)
    (error : Option ErrObj) (response : RpcResponse) : ProviderState × Outcome JsValue :=
  let payload := JsonRpcMapper.toPayload method params id
  let r := sendPayload s (.single payload) error response
  match r.outcome with
  | .rejected e => (r.state, .rejected e)
  | .resolved resp =>
    match validate resp with
    | some e => (r.state, .rejected e)
    | none => (r.state, .resolved resp.result)

/-- The `methods.forEach` loop of `sendBatch` (source lines 167-172): for each queued
method, first `method.beforeExecution(moduleInstance)` (modelled as the state
transformer `hook`, with the module instance folded in), then
`payload.push(JsonRpcMapper.toPayload(method.rpcMethod, method.parameters))` reading
the hook-mutated method; `ctr` is the mapper's running message counter. Returns the
assembled payload array, the trace of hook and build steps in execution order, and the
counter after the loop. -/
def sendBatchBuild (hook : Method → Method) (ms : List Method) (ctr : Int) :
    List Payload × List (Action α) × Int :=
  match ms with
  | [] => ([], [], ctr)
  | m :: rest =>
    let m' := hook m
    let p := JsonRpcMapper.toPayload m'.rpcMethod m'.parameters ctr
    let (ps, tr, c) := sendBatchBuild hook rest (ctr + 1)
    (p :: ps, .hook m :: .build p :: tr, c)

/-- Method `sendBatch(methods, moduleInstance)` (source lines 166-175) run to settlement: the
assembly loop, then `return this.sendPayload(payload)` with the assembled array.
Returns the settlement result together with the assembled payload array. -/
def sendBatch (hook : Method → Method) (s : ProviderState) (ms : List Method)
    (ctr : Int) (error : Option ErrObj) (response : α) : SendResult α × List Payload :=
  let (ps, tr, _) := sendBatchBuild (α := α) hook ms ctr
  let r := sendPayload s (.batch ps) error response
  (⟨r.state, r.outcome, tr ++ r.trace⟩, ps)

end MetamaskInpageProvider

open MetamaskInpageProvider

/-- Filtering for a key after filtering that key away yields nothing. -/
theorem filter_eq_after_filter_ne (l : List (JsValue × Nat)) (k : JsValue) :
    ((l.filter fun q => decide (¬ q.1 = k)).filter fun q => decide (q.1 = k)) = [] := by
  rw [List.filter_filter]
  refine List.filter_eq_nil_iff.mpr ?_
  intro a ha
  simp

/-- A numeric value is never one of the outward channel names (they are strings). -/
theorem num_not_channelName (n : Int) : JsValue.num n ∉ channelNames := by
  simp [channelNames, SOCKET_MESSAGE, SOCKET_ACCOUNTS_CHANGED, SOCKET_NETWORK_CHANGED,
    SOCKET_ERROR, SOCKET_READY]

/-- Removing the channel-name-keyed entries leaves the numeric-keyed entries intact. -/
theorem filter_num_after_filter_channels (l : List (JsValue × Nat)) (n : Int) :
    ((l.filter fun q => decide (q.1 ∉ channelNames)).filter fun q => decide (q.1 = JsValue.num n)) =
      l.filter fun q => decide (q.1 = JsValue.num n) := by
  induction l with
  | nil => rfl
  | cons x xs ih =>
    rw [List.filter_cons]
    by_cases hc : x.1 ∈ channelNames
    · have hx : ¬ x.1 = JsValue.num n := by
        intro h
        exact num_not_channelName n (h ▸ hc)
      rw [if_neg (by simpa using hc), ih, List.filter_cons, if_neg (by simpa using hx)]
    · rw [if_pos (by simpa using hc), List.filter_cons, List.filter_cons]
      by_cases hx : x.1 = JsValue.num n
      · rw [if_pos (by simpa using hx), if_pos (by simpa using hx), ih]
      · rw [if_neg (by simpa using hx), if_neg (by simpa using hx), ih]

/-- `removeAllListeners` never touches the `emitterListeners` of other keys than its
argument and empties the table of its argument when the argument is not `undefined`. -/
theorem listenersFor_removeAllListeners (s : ProviderState) (event : JsValue)
    (hne : ¬ event = JsValue.undefined) :
    listenersFor (removeAllListeners s event) event = [] := by
  unfold removeAllListeners superRemoveAllListeners listenersFor
  simp only [if_neg hne]
  rw [filter_eq_after_filter_ne]
  rfl

/-- C5 counterexample: `registerEventListeners` is not idempotent — a second call
changes the attached native listener list (it appends five more bound handlers), and a
single call attaches five listener registrations, not four. -/
theorem registerEventListeners_not_idempotent :
    (registerEventListeners (registerEventListeners (mkProvider ⟨[], true⟩))).connection.listeners ≠
      (registerEventListeners (mkProvider ⟨[], true⟩)).connection.listeners ∧
    (registerEventListeners (mkProvider ⟨[], true⟩)).connection.listeners.length ≠ 4 := by
  decide

/-- C5 (amended): `registerEventListeners` appends exactly five freshly bound native
listener registrations — accountsChanged, networkChanged twice (onReady and
onNetworkChanged), data, error — to the connection's listener list, so a second call
double-subscribes, leaving ten registrations. -/
theorem registerEventListeners_appends_five (s : ProviderState) :
    (registerEventListeners s).connection.listeners =
      s.connection.listeners ++
        [("accountsChanged", Handler.bound .onAccountsChanged),
         ("networkChanged", Handler.bound .onReady),
         ("networkChanged", Handler.bound .onNetworkChanged),
         ("data", Handler.bound .onMessage),
         ("error", Handler.bound .onError)] ∧
    (registerEventListeners (registerEventListeners s)).connection.listeners.length =
      s.connection.listeners.length + 10 := by
  constructor
  · simp [registerEventListeners, Connection.on]
  · simp [registerEventListeners, Connection.on]

/-- C6: evaluating the code at the failing input — after `registerEventListeners()` on
a fresh provider, `removeAllListeners(SOCKET_MESSAGE)` leaves the native listener list
completely unchanged: the bound `onMessage` handler attached under the native `data`
channel is still present, because `connection.removeListener('data', this.onMessage)`
is called with the bare method reference while `registerEventListeners` attached
`this.onMessage.bind(this)`, a different function object. -/
theorem removeAllListeners_bind_mismatch :
    (removeAllListeners (registerEventListeners (mkProvider ⟨[], true⟩)) SOCKET_MESSAGE).connection.listeners =
      (registerEventListeners (mkProvider ⟨[], true⟩)).connection.listeners ∧
    ("data", Handler.bound .onMessage) ∈
      (removeAllListeners (registerEventListeners (mkProvider ⟨[], true⟩)) SOCKET_MESSAGE).connection.listeners := by
  decide

/-- C7: the adapter's `onMessage(metamaskParam, payload)` hands exactly the second
argument to the inherited dispatch path; the first argument is never observed — the
result is the same for any value of the first argument. -/
theorem onMessage_forwards_second_arg (superOnMessage : JsValue → α)
    (a a' b : JsValue) :
    onMessage superOnMessage a b = superOnMessage b ∧
    onMessage superOnMessage a b = onMessage superOnMessage a' b :=
  ⟨rfl, rfl⟩

/-- C8: `disconnect()` returns `true` on every invocation, for every adapter state
(whatever the transport's connectivity flag), and leaves the state untouched — no
teardown of the underlying transport. -/
theorem disconnect_always_true (s : ProviderState) :
    (disconnect s).1 = true ∧ (disconnect s).2 = s :=
  ⟨rfl, rfl⟩

/-- C9: the `connected` getter returns exactly the connection's own connectivity flag,
whatever the values of every other piece of adapter state (native listener list, host,
outward listener table). -/
theorem connected_delegates_to_connection (ls : List (String × Handler)) (flag : Bool)
    (h : String) (em : List (JsValue × Nat)) :
    connected ⟨⟨ls, flag⟩, h, em⟩ = flag :=
  rfl

/-- C1: on every completion of the transport write callback in `sendPayload` — for
every payload argument, whether the callback reports an error or a response — the
`removeAllListeners(payload.id)` cleanup step occurs at a strictly earlier position of
the execution trace than the settlement step; and for a single request, in the state in
which the promise settles no outward listener registered under the request's
correlation id remains. -/
theorem sendPayload_cleanup_before_settle (s : ProviderState) (payload : PayloadArg)
    (p : Payload) (error error' : Option ErrObj) (response response' : α) :
    (∃ i j,
      (sendPayload s payload error response).trace.findIdx?
          (Action.isCleanupFor (payloadId payload)) = some i ∧
      (sendPayload s payload error response).trace.findIdx? Action.isSettle = some j ∧
      i < j) ∧
    listenersFor (sendPayload s (.single p) error' response').state (JsValue.num p.id) = [] := by
  refine ⟨⟨1, 2, ?_, ?_, by norm_num⟩, ?_⟩
  · cases error <;>
      simp [sendPayload, sendPayloadCallback, List.findIdx?_cons,
        Action.isCleanupFor, Action.isSettle]
  · cases error <;>
      simp [sendPayload, sendPayloadCallback, List.findIdx?_cons,
        Action.isCleanupFor, Action.isSettle]
  · cases error' <;>
      exact listenersFor_removeAllListeners s (JsValue.num p.id) (by simp)

/-- C3: when the transport completion callback reports an error object, the promise
returned by `sendPayload` rejects with exactly that object and the
`removeAllListeners(payload.id)` cleanup is still performed, before the rejection;
when it reports no error, the promise resolves with the raw response exactly as
delivered, after the same cleanup. -/
theorem sendPayload_error_success_paths (s : ProviderState) (payload : PayloadArg)
    (e : ErrObj) (response : α) :
    (sendPayload s payload (some e) response).outcome = Outcome.rejected e ∧
    (sendPayload s payload (some e) response).state = removeAllListeners s (payloadId payload) ∧
    (sendPayload s payload (some e) response).trace =
      [Action.write payload, Action.cleanup (payloadId payload), Action.reject e] ∧
    (sendPayload s payload none response).outcome = Outcome.resolved response ∧
    (sendPayload s payload none response).state = removeAllListeners s (payloadId payload) ∧
    (sendPayload s payload none response).trace =
      [Action.write payload, Action.cleanup (payloadId payload), Action.resolve response] :=
  ⟨rfl, rfl, rfl, rfl, rfl, rfl⟩

/-- C2: for a delivered response (transport reports no error), if the validator
classifies the response as an error — returns an Error instance — then the promise
returned by `send` rejects with exactly that object; otherwise it resolves with the
response's `result` field only, never with the full response envelope. -/
theorem send_validator_discrimination (validate : RpcResponse → Option ErrObj)
    (s : ProviderState) (method : String) (params : List JsValue) (id : Int)
    (response : RpcResponse) (e : ErrObj) :
    (validate response = some e →
      (send validate s method params id none response).2 = Outcome.rejected e) ∧
    (validate response = none →
      (send validate s method params id none response).2 = Outcome.resolved response.result) := by
  constructor <;> intro h <;> simp [send, sendPayload, sendPayloadCallback, h]

/-- Witness for C2 at concrete inputs: a validator flagging any response whose `error`
field is set, one erroneous and one successful response. -/
theorem send_validator_discrimination_witness :
    (send (fun r => if r.error = JsValue.undefined then none else some ⟨"boom"⟩)
        (mkProvider ⟨[], true⟩) "eth_getBalance" [] 1 none
        ⟨JsValue.num 1, JsValue.undefined, JsValue.str "bad"⟩).2 = Outcome.rejected ⟨"boom"⟩ ∧
    (send (fun r => if r.error = JsValue.undefined then none else some ⟨"boom"⟩)
        (mkProvider ⟨[], true⟩) "eth_getBalance" [] 1 none
        ⟨JsValue.num 1, JsValue.str "0x1", JsValue.undefined⟩).2 =
      Outcome.resolved (JsValue.str "0x1") :=
  ⟨(send_validator_discrimination
      (fun r => if r.error = JsValue.undefined then none else some ⟨"boom"⟩)
      (mkProvider ⟨[], true⟩) "eth_getBalance" [] 1
      ⟨JsValue.num 1, JsValue.undefined, JsValue.str "bad"⟩ ⟨"boom"⟩).1 (by decide),
   (send_validator_discrimination
      (fun r => if r.error = JsValue.undefined then none else some ⟨"boom"⟩)
      (mkProvider ⟨[], true⟩) "eth_getBalance" [] 1
      ⟨JsValue.num 1, JsValue.str "0x1", JsValue.undefined⟩ ⟨"boom"⟩).2 (by decide)⟩

/-- Frame lemma: `removeAllListeners(undefined)` — the call the settlement of a batch
performs, since an array has no `id` property — matches none of the outward channel
cases (the native listener list is untouched) and, on the emitter side, removes only
channel-name keys, never a numeric correlation-id key. -/
theorem removeAllListeners_undefined_frame (s : ProviderState) (n : Int) :
    (removeAllListeners s JsValue.undefined).connection = s.connection ∧
    listenersFor (removeAllListeners s JsValue.undefined) (JsValue.num n) =
      listenersFor s (JsValue.num n) := by
  have hem : (removeAllListeners s JsValue.undefined).emitterListeners =
      s.emitterListeners.filter (fun q => decide (q.1 ∉ channelNames)) := rfl
  constructor
  · rfl
  · unfold listenersFor
    rw [hem, filter_num_after_filter_channels]

/-- C10: settling a `sendPayload` call whose payload is an array (as `sendBatch`
produces) passes `payload.id = undefined` to the cleanup call; the switch matches no
outward channel case, so the native channel listeners all stay attached (the connection
is completely untouched), and no outward listener keyed by any numeric correlation id —
in particular any sub-request's id — is removed. -/
theorem sendPayload_batch_cleanup_noop (s : ProviderState) (ps : List Payload)
    (error : Option ErrObj) (response : α) (n : Int) :
    payloadId (.batch ps) = JsValue.undefined ∧
    (sendPayload s (.batch ps) error response).state.connection = s.connection ∧
    listenersFor (sendPayload s (.batch ps) error response).state (JsValue.num n) =
      listenersFor s (JsValue.num n) := by
  refine ⟨rfl, ?_, ?_⟩
  · cases error <;> exact (removeAllListeners_undefined_frame s n).1
  · cases error <;> exact (removeAllListeners_undefined_frame s n).2

/-- The payload array assembled by the `sendBatch` loop is, element for element, the
payload built from the hook-mutated i-th queued method with the i-th counter value —
the same order as the input sequence. -/
theorem sendBatchBuild_payloads (hook : Method → Method) (ms : List Method) (ctr : Int) :
    (sendBatchBuild (α := α) hook ms ctr).1 =
      ms.mapIdx (fun i m =>
        JsonRpcMapper.toPayload (hook m).rpcMethod (hook m).parameters (ctr + i)) := by
  induction ms generalizing ctr with
  | nil => rfl
  | cons m rest ih =>
    rw [List.mapIdx_cons]
    show (JsonRpcMapper.toPayload (hook m).rpcMethod (hook m).parameters ctr) ::
        (sendBatchBuild (α := α) hook rest (ctr + 1)).1 = _
    rw [ih]
    have hf : (fun (i : ℕ) (mm : Method) =>
        JsonRpcMapper.toPayload (hook mm).rpcMethod (hook mm).parameters (ctr + 1 + i)) =
        (fun (i : ℕ) (mm : Method) =>
        JsonRpcMapper.toPayload (hook mm).rpcMethod (hook mm).parameters (ctr + (i + 1 : ℕ))) := by
      funext i mm
      have h1 : ctr + 1 + (i : Int) = ctr + ((i : ℕ) + 1 : ℕ) := by push_cast; ring
      rw [h1]
    rw [hf]
    norm_num

/-- The steps of the `sendBatch` loop are, per queued method in input order, its hook
invocation immediately followed by its payload build. -/
theorem sendBatchBuild_trace (hook : Method → Method) (ms : List Method) (ctr : Int) :
    (sendBatchBuild (α := α) hook ms ctr).2.1 =
      ((ms.zip (sendBatchBuild (α := α) hook ms ctr).1).map
          (fun q => [Action.hook q.1, Action.build q.2])).flatten := by
  induction ms generalizing ctr with
  | nil => rfl
  | cons m rest ih =>
    show Action.hook m :: Action.build (JsonRpcMapper.toPayload (hook m).rpcMethod (hook m).parameters ctr) ::
        (sendBatchBuild (α := α) hook rest (ctr + 1)).2.1 = _
    rw [ih]
    rfl

/-- The assembly part of a batch trace contains no transport write. -/
theorem filter_isWrite_flatten (l : List (Method × Payload)) :
    (((l.map (fun q => [Action.hook (α := α) q.1, Action.build q.2])).flatten).filter
        Action.isWrite) = [] := by
  induction l with
  | nil => rfl
  | cons x xs ih =>
    simp [List.filter_append, ih, Action.isWrite, List.filter_cons]

/-- The assembly part of a batch trace contains exactly one hook invocation per
queued method. -/
theorem countP_isHook_flatten (l : List (Method × Payload)) :
    (((l.map (fun q => [Action.hook (α := α) q.1, Action.build q.2])).flatten).countP
        Action.isHook) = l.length := by
  induction l with
  | nil => rfl
  | cons x xs ih =>
    simp [List.countP_append, ih, Action.isHook, List.countP_cons]

/-- C4: `sendBatch` invokes each queued method's `beforeExecution` hook exactly once
and before that method's payload is built (each trace segment is the hook invocation
immediately followed by the build of that method's payload, all before the write),
assembles the payloads in the same order as the input sequence, performs exactly one
transport write whose body is that array, and on completion resolves with the raw
aggregate reply as delivered — no per-item validation or correlation appears anywhere
in the trace or in the outcome. -/
theorem sendBatch_ordered_single_write (hook : Method → Method) (s : ProviderState)
    (ms : List Method) (ctr : Int) (response : α) :
    (sendBatch hook s ms ctr none response).2 =
      ms.mapIdx (fun i m =>
        JsonRpcMapper.toPayload (hook m).rpcMethod (hook m).parameters (ctr + i)) ∧
    (sendBatch hook s ms ctr none response).1.trace =
      ((ms.zip (sendBatch hook s ms ctr none response).2).map
          (fun q => [Action.hook q.1, Action.build q.2])).flatten ++
        [Action.write (.batch (sendBatch hook s ms ctr none response).2),
         Action.cleanup JsValue.undefined,
         Action.resolve response] ∧
    (sendBatch hook s ms ctr none response).1.trace.filter Action.isWrite =
      [Action.write (.batch (sendBatch hook s ms ctr none response).2)] ∧
    (sendBatch hook s ms ctr none response).1.trace.countP Action.isHook = ms.length ∧
    (sendBatch hook s ms ctr none response).1.outcome = Outcome.resolved response := by
  have h2 : (sendBatch hook s ms ctr none response).2 = (sendBatchBuild (α := α) hook ms ctr).1 := rfl
  have htr : (sendBatch hook s ms ctr none response).1.trace =
      (sendBatchBuild (α := α) hook ms ctr).2.1 ++
        [Action.write (.batch (sendBatchBuild (α := α) hook ms ctr).1),
         Action.cleanup JsValue.undefined, Action.resolve response] := rfl
  have hlen : (sendBatchBuild (α := α) hook ms ctr).1.length = ms.length := by
    rw [sendBatchBuild_payloads]
    simp [List.length_mapIdx]
  refine ⟨?_, ?_, ?_, ?_, rfl⟩
  · rw [h2, sendBatchBuild_payloads]
  · rw [htr, h2, sendBatchBuild_trace]
  · rw [htr, h2, List.filter_append, sendBatchBuild_trace, filter_isWrite_flatten]
    rfl
  · rw [htr, List.countP_append, sendBatchBuild_trace, countP_isHook_flatten]
    simp [List.length_zip, hlen, Action.isHook, List.countP_cons]
